import Mathlib

/-!
Shallow embedding of `src/createBarrier.cpp` (`BS::Grid::createBarrier`).

The file first translates the data model and the barrier generator from the
source, then states and proves the properties of the specification.

External collaborators of the generator (the 2D grid store, the uniform
random integer source, the neighborhood-traversal utility and the
`Coord` value type) are declared elsewhere in the repository and are not
part of the examined slice; they are modelled from the specification, as
noted on each such definition.
-/

namespace BS

/-- Cell markers of the grid relevant to this core: `EMPTY` and `BARRIER`
(other occupant states exist in the program but are irrelevant here). -/
inductive CellVal where
  | EMPTY : CellVal
  | BARRIER : CellVal
deriving DecidableEq

/-- Modelled from the spec: `Coordinate` is a 2D integer point value type
(the source stores the components in `int16_t`; the specification describes
them as signed integers, so they are embedded as unbounded `Int`). -/
structure Coord where
  x : Int
  y : Int
deriving DecidableEq

/-- Modelled from the spec: componentwise subtraction of coordinates. -/
def Coord.sub (a b : Coord) : Coord := ⟨a.x - b.x, a.y - b.y⟩

/-- Squared Euclidean length of a coordinate, as a natural number. -/
def Coord.lengthSq (c : Coord) : Nat :=
  c.x.natAbs * c.x.natAbs + c.y.natAbs * c.y.natAbs

/-- Modelled from the spec: `Coord` supports the Euclidean length of a
difference, used for minimum-separation checks; the integer-valued length is
the floor of the real square root, which compares to an integer margin
exactly as the real Euclidean length does. -/
def Coord.length (c : Coord) : Nat := Nat.sqrt c.lengthSq

/-- State mutated by `createBarrier`: the grid cells, the two output records
`barrierLocations` and `barrierCenters`, and an instrumentation field
`setTrace` recording every coordinate passed to `grid.set(..., BARRIER)`
during the call (in call order). -/
structure GState where
  grid : Int → Int → CellVal
  barrierLocations : List Coord
  barrierCenters : List Coord
  setTrace : List Coord

/-- Modelled from the spec: `grid.set(x, y, v)` writes one cell of the 2D
field. -/
def gridSet (g : Int → Int → CellVal) (c : Coord) (v : CellVal) :
    Int → Int → CellVal :=
  fun x y => if x = c.x ∧ y = c.y then v else g x y

/-- One marking step of the generator: `grid.set(loc, BARRIER);
barrierLocations.push_back(loc);` (the trace records the `set` call). -/
def markCell (st : GState) (c : Coord) : GState :=
  { st with
    grid := gridSet st.grid c CellVal.BARRIER
    barrierLocations := st.barrierLocations ++ [c]
    setTrace := st.setTrace ++ [c] }

/-- Inclusive integer range `[lo, hi]`, empty when `hi < lo`: the values
visited by `for (x = lo; x <= hi; ++x)`. -/
def intRange (lo hi : Int) : List Int :=
  (List.range (hi + 1 - lo).toNat).map (fun i : Nat => lo + (i : Int))

/-- Cells visited by the nested inclusive loops of `drawBox`, in row-major
order (outer loop on `x`, inner loop on `y`). -/
def boxCells (minX minY maxX maxY : Int) : List Coord :=
  (intRange minX maxX).flatMap (fun x =>
    (intRange minY maxY).map (fun y => ⟨x, y⟩))

/-- The `drawBox` lambda of `createBarrier`: marks every cell of the box
and appends it to `barrierLocations`. -/
def drawBox (minX minY maxX maxY : Int) (st : GState) : GState :=
  (boxCells minX minY maxX maxY).foldl markCell st

/-- Modelled from the spec: the uniform random integer source
`R(a, b)`, inclusive of both ends.  A run of the program is represented by a
stream of underlying natural-number draws; each call consumes one draw and
maps it into `[lo, hi]` (every value of the inclusive range is reached by
some draw). -/
def randomUint (lo hi : Nat) (s : Nat → Nat) : Nat × (Nat → Nat) :=
  (lo + s 0 % (hi + 1 - lo), fun n => s (n + 1))

/-- The `randomLoc` lambda of case 5: one x draw then one y draw, both kept
at least `margin` away from the edges. -/
def randomLoc (W H margin : Nat) (s : Nat → Nat) : Coord × (Nat → Nat) :=
  let p := randomUint margin (W - margin) s
  let q := randomUint margin (H - margin) p.2
  (⟨(p.1 : Int), (q.1 : Int)⟩, q.2)

/-- The center-sampling loop of case 5: `for (idx = 0; idx < numIslands;
++idx) centers[idx] = randomLoc();`. -/
def sampleCenters (W H margin : Nat) : Nat → (Nat → Nat) → List Coord × (Nat → Nat)
  | 0, s => ([], s)
  | n + 1, s =>
    let p := randomLoc W H margin s
    let q := sampleCenters W H margin n p.2
    (p.1 :: q.1, q.2)

/-- One pair check of the validation loops of case 5:
`!((centers[a] - centers[b]).length() < margin)`.  The comparison of the
integer Euclidean length against the integer `margin` is expressed on
squared distances, which is exactly equivalent (proved below in
`pairOK_eq_length_check`) and keeps the check executable without square
roots. -/
def pairOK (margin : Nat) (a b : Coord) : Bool :=
  ! ((a.sub b).lengthSq < margin * margin)

/-- The nested validation loops of case 5: `placementValid` stays true iff
every pair `a < b` of sampled centers passes `pairOK`. -/
def placementValid (margin : Nat) : List Coord → Bool
  | [] => true
  | c :: cs => cs.all (pairOK margin c) && placementValid margin cs

/-- The `while (!placementValid)` rejection loop of case 5, made explicit
with a fuel argument: each round resamples all centers and stops when the
placement is valid; `none` means the fuel was exhausted without any round
succeeding (the source loop would still be running). -/
def findCenters (W H margin numIslands : Nat) :
    Nat → (Nat → Nat) → Option (List Coord × (Nat → Nat))
  | 0, _ => none
  | fuel + 1, s =>
    let p := sampleCenters W H margin numIslands s
    if placementValid margin p.1 then some p
    else findCenters W H margin numIslands fuel p.2

/-- The stamping loop of case 5: for each center, push it onto
`barrierCenters` and then visit its neighborhood with the marking callback
`f`.  The neighborhood visitor is an external collaborator, passed in as
`visit`. -/
def stampIslands (visit : Coord → Nat → List Coord) (radius : Nat) :
    List Coord → GState → GState
  | [], st => st
  | c :: cs, st =>
    let st1 : GState := { st with barrierCenters := st.barrierCenters ++ [c] }
    stampIslands visit radius cs ((visit c radius).foldl markCell st1)

/-- The stamping loop of case 6: for each spot location, visit its
neighborhood with the marking callback and then push the location onto
`barrierCenters` (note the order is the reverse of case 5). -/
def stampSpots (visit : Coord → Nat → List Coord) (radius : Nat) :
    List Coord → GState → GState
  | [], st => st
  | c :: cs, st =>
    let st1 := (visit c radius).foldl markCell st
    stampSpots visit radius cs
      { st1 with barrierCenters := st1.barrierCenters ++ [c] }

/-- Spot locations of case 6, for `n = 1 .. numberOfLocations`:
`{(int16_t)(p.sizeX / 2), (int16_t)(n * verticalSliceSize)}` with
`verticalSliceSize = p.sizeY / (numberOfLocations + 1)` and
`numberOfLocations = 5`. -/
def spotCenters (W H : Nat) : List Coord :=
  (List.range 5).map (fun k =>
    ⟨((W / 2 : Nat) : Int), (((k + 1) * (H / 6) : Nat) : Int)⟩)

/-- The entry of `createBarrier`: `barrierLocations.clear();
barrierCenters.clear();` (the instrumentation trace also restarts, since it
records the `set` calls of the current call only). -/
def clearSt (st : GState) : GState :=
  { st with barrierLocations := [], barrierCenters := [], setTrace := [] }

/-- Outcome of a call to `createBarrier`: `ok` is a normal return with the
final state, `fatal` is the `assert(false)` of the `default` branch (the
state at the moment of the abort is carried for inspection), and
`exhausted` marks a run of the case 5 rejection loop that has not
succeeded within the given fuel (the source would still be looping). -/
inductive BResult where
  | ok : GState → BResult
  | fatal : GState → BResult
  | exhausted : BResult

/-- Shallow embedding of `BS::Grid::createBarrier(unsigned barrierType)`.

`W`, `H` are `p.sizeX`, `p.sizeY`; `visit` is the external
`visitNeighborhood` utility (center, radius, enumerated cells); `s` is the
stream backing the random source; `fuel` bounds the case 5 rejection loop.
All divisions of the source are C truncating divisions of nonnegative
values and are written as `Nat` division, cast to `Int` where the source
computes an `int16_t`. -/
def createBarrier (W H : Nat) (visit : Coord → Nat → List Coord)
    (barrierType : Nat) (s : Nat → Nat) (fuel : Nat) (st0 : GState) : BResult :=
  let st := clearSt st0
  match barrierType with
  | 0 => BResult.ok st
  | 1 =>
    -- minX = sizeX/2; maxX = minX+1; minY = sizeY/4; maxY = minY + sizeY/2
    let minX : Int := ((W / 2 : Nat) : Int)
    let maxX : Int := minX + 1
    let minY : Int := ((H / 4 : Nat) : Int)
    let maxY : Int := minY + ((H / 2 : Nat) : Int)
    BResult.ok (drawBox minX minY maxX maxY st)
  | 2 =>
    -- midX = randomUint(sizeX/10, sizeX - sizeX/10)
    -- midY = randomUint(sizeY/4, sizeY - sizeY/4)
    let midX := (randomUint (W / 10) (W - W / 10) s).1
    let s1 := (randomUint (W / 10) (W - W / 10) s).2
    let midY := (randomUint (H / 4) (H - H / 4) s1).1
    let minX : Int := (midX : Int) - 1
    let maxX : Int := (midX : Int) + 1
    let minY : Int := (midY : Int) - ((H / 4 : Nat) : Int)
    let maxY : Int := (midY : Int) + ((H / 4 : Nat) : Int)
    -- barrierCenters.push_back({midX, midY}); then the marking loops
    let st1 : GState :=
      { st with barrierCenters := st.barrierCenters ++ [⟨(midX : Int), (midY : Int)⟩] }
    BResult.ok (drawBox minX minY maxX maxY st1)
  | 3 =>
    -- blockSizeX = 2; blockSizeY = sizeX/3; the five drawBox calls with
    -- the in-place updates of x0, y0, x1, y1 written as rebindings
    let blockSizeX : Int := 2
    let blockSizeY : Int := ((W / 3 : Nat) : Int)
    let x0 : Int := ((W / 4 : Nat) : Int) - 1                     -- blockSizeX / 2 = 1
    let y0 : Int := ((H / 4 : Nat) : Int) - ((W / 3 / 2 : Nat) : Int)  -- blockSizeY / 2
    let x1 : Int := x0 + blockSizeX
    let y1 : Int := y0 + blockSizeY
    let st := drawBox x0 y0 x1 y1 st
    let x0 := x0 + ((W / 2 : Nat) : Int)
    let x1 := x0 + blockSizeX
    let st := drawBox x0 y0 x1 y1 st
    let y0 := y0 + ((H / 2 : Nat) : Int)
    let y1 := y0 + blockSizeY
    let st := drawBox x0 y0 x1 y1 st
    let x0 := x0 - ((W / 2 : Nat) : Int)
    let x1 := x0 + blockSizeX
    let st := drawBox x0 y0 x1 y1 st
    let x0 := ((W / 2 : Nat) : Int) - 1                           -- blockSizeX / 2 = 1
    let x1 := x0 + blockSizeX
    let y0 := ((H / 2 : Nat) : Int) - ((W / 3 / 2 : Nat) : Int)   -- blockSizeY / 2
    let y1 := y0 + blockSizeY
    BResult.ok (drawBox x0 y0 x1 y1 st)
  | 4 =>
    -- minX = sizeX/4; maxX = minX + sizeX/2
    -- minY = sizeY/2 + sizeY/4; maxY = minY + 2
    let minX : Int := ((W / 4 : Nat) : Int)
    let maxX : Int := minX + ((W / 2 : Nat) : Int)
    let minY : Int := ((H / 2 : Nat) : Int) + ((H / 4 : Nat) : Int)
    let maxY : Int := minY + 2
    BResult.ok (drawBox minX minY maxX maxY st)
  | 5 =>
    -- radius = 3; margin = radius * 4 = 12; numIslands = 12
    match findCenters W H 12 12 fuel s with
    | none => BResult.exhausted
    | some p => BResult.ok (stampIslands visit 3 p.1 st)
  | 6 =>
    -- numberOfLocations = 5; radius = 5.0 (integral); the loop over
    -- n = 1..5 visits each spot and records its center
    BResult.ok (stampSpots visit 5 (spotCenters W H) st)
  | _ => BResult.fatal st     -- default: assert(false)

/-- Barrier locations of an outcome (empty for an exhausted case 5 run,
which never reaches the stamping phase). -/
def locsOf : BResult → List Coord
  | BResult.ok st => st.barrierLocations
  | BResult.fatal st => st.barrierLocations
  | BResult.exhausted => []

/-- Barrier centers of an outcome. -/
def centersOf : BResult → List Coord
  | BResult.ok st => st.barrierCenters
  | BResult.fatal st => st.barrierCenters
  | BResult.exhausted => []

/-- Trace of `grid.set` calls of an outcome. -/
def traceOf : BResult → List Coord
  | BResult.ok st => st.setTrace
  | BResult.fatal st => st.setTrace
  | BResult.exhausted => []

/-- Final grid of an outcome (an exhausted run has written nothing). -/
def gridOf : BResult → Int → Int → CellVal
  | BResult.ok st => st.grid
  | BResult.fatal st => st.grid
  | BResult.exhausted => fun _ _ => CellVal.EMPTY

/-- Initial state used by concrete evaluations: an all-`EMPTY` grid and
empty records. -/
def gInit : GState := ⟨fun _ _ => CellVal.EMPTY, [], [], []⟩

/-- Final state of a normal return (defaulting to `gInit` otherwise); used
to instantiate theorems at concrete runs. -/
def okState : BResult → GState
  | BResult.ok st => st
  | BResult.fatal st => st
  | BResult.exhausted => gInit

/-- Neighborhood visitor that yields no cells; used for concrete runs whose
claim does not depend on the visited cells. -/
def visNone : Coord → Nat → List Coord := fun _ _ => []

/-- All-zero random stream. -/
def sZero : Nat → Nat := fun _ => 0

end BS

namespace BS

theorem foldl_markCell_locations (cells : List Coord) (st : GState) :
    (cells.foldl markCell st).barrierLocations = st.barrierLocations ++ cells := by
  induction cells generalizing st with
  | nil => simp
  | cons c cs ih => simp [ih, markCell]

theorem foldl_markCell_trace (cells : List Coord) (st : GState) :
    (cells.foldl markCell st).setTrace = st.setTrace ++ cells := by
  induction cells generalizing st with
  | nil => simp
  | cons c cs ih => simp [ih, markCell]

theorem foldl_markCell_centers (cells : List Coord) (st : GState) :
    (cells.foldl markCell st).barrierCenters = st.barrierCenters := by
  induction cells generalizing st with
  | nil => simp
  | cons c cs ih => simp [ih, markCell]

theorem foldl_markCell_grid_not_mem (cells : List Coord) (st : GState) (x y : Int)
    (h : ∀ q ∈ cells, ¬(q.x = x ∧ q.y = y)) :
    (cells.foldl markCell st).grid x y = st.grid x y := by
  induction cells generalizing st with
  | nil => rfl
  | cons c cs ih =>
    rw [List.foldl_cons, ih _ (fun q hq => h q (List.mem_cons_of_mem c hq))]
    have hc := h c (List.mem_cons_self c cs)
    simp only [markCell, gridSet]
    rw [if_neg]
    intro hxy
    exact hc ⟨hxy.1.symm, hxy.2.symm⟩

theorem foldl_markCell_grid_mem (cells : List Coord) (st : GState) (x y : Int)
    (h : ∃ q ∈ cells, q.x = x ∧ q.y = y) :
    (cells.foldl markCell st).grid x y = CellVal.BARRIER := by
  induction cells generalizing st with
  | nil => simp at h
  | cons c cs ih =>
    rw [List.foldl_cons]
    by_cases hcs : ∃ q ∈ cs, q.x = x ∧ q.y = y
    · exact ih _ hcs
    · push_neg at hcs
      rw [foldl_markCell_grid_not_mem cs _ x y (by
        intro q hq hxy
        exact (hcs q hq hxy.1) hxy.2)]
      obtain ⟨q, hq, hqx, hqy⟩ := h
      rcases List.mem_cons.mp hq with rfl | hq'
      · simp only [markCell, gridSet]
        rw [if_pos ⟨hqx.symm, hqy.symm⟩]
      · exact absurd hqy (hcs q hq' hqx)

theorem foldl_markCell_grid_barrier (cells : List Coord) (st : GState) (x y : Int)
    (h : st.grid x y = CellVal.BARRIER) :
    (cells.foldl markCell st).grid x y = CellVal.BARRIER := by
  by_cases hm : ∃ q ∈ cells, q.x = x ∧ q.y = y
  · exact foldl_markCell_grid_mem cells st x y hm
  · push_neg at hm
    rw [foldl_markCell_grid_not_mem cells st x y (by
      intro q hq hxy; exact (hm q hq hxy.1) hxy.2)]
    exact h

theorem mem_intRange (v lo hi : Int) : v ∈ intRange lo hi ↔ lo ≤ v ∧ v ≤ hi := by
  simp only [intRange, List.mem_map, List.mem_range]
  constructor
  · rintro ⟨i, hi', rfl⟩
    omega
  · rintro ⟨h1, h2⟩
    exact ⟨(v - lo).toNat, by omega, by omega⟩

theorem length_intRange (lo hi : Int) :
    (intRange lo hi).length = (hi + 1 - lo).toNat := by
  simp [intRange]

theorem mem_boxCells (q : Coord) (minX minY maxX maxY : Int) :
    q ∈ boxCells minX minY maxX maxY ↔
      minX ≤ q.x ∧ q.x ≤ maxX ∧ minY ≤ q.y ∧ q.y ≤ maxY := by
  obtain ⟨qx, qy⟩ := q
  simp only [boxCells, List.mem_flatMap, List.mem_map, mem_intRange, Coord.mk.injEq]
  constructor
  · rintro ⟨x, hx, y, hy, rfl, rfl⟩
    exact ⟨hx.1, hx.2, hy.1, hy.2⟩
  · rintro ⟨h1, h2, h3, h4⟩
    exact ⟨qx, ⟨h1, h2⟩, qy, ⟨h3, h4⟩, rfl, rfl⟩

theorem length_boxCells (minX minY maxX maxY : Int) :
    (boxCells minX minY maxX maxY).length =
      (maxX + 1 - minX).toNat * (maxY + 1 - minY).toNat := by
  simp [boxCells, length_intRange, Function.comp_def]

theorem randomUint_bounds (lo hi : Nat) (s : Nat → Nat) (h : lo ≤ hi) :
    lo ≤ (randomUint lo hi s).1 ∧ (randomUint lo hi s).1 ≤ hi := by
  have hm := Nat.mod_lt (s 0) (show 0 < hi + 1 - lo by omega)
  unfold randomUint
  omega

theorem stampIslands_locations (visit : Coord → Nat → List Coord) (radius : Nat)
    (cs : List Coord) (st : GState) :
    (stampIslands visit radius cs st).barrierLocations =
      st.barrierLocations ++ cs.flatMap (fun c => visit c radius) := by
  induction cs generalizing st with
  | nil => simp [stampIslands]
  | cons c cs ih => simp [stampIslands, ih, foldl_markCell_locations]

theorem stampIslands_trace (visit : Coord → Nat → List Coord) (radius : Nat)
    (cs : List Coord) (st : GState) :
    (stampIslands visit radius cs st).setTrace =
      st.setTrace ++ cs.flatMap (fun c => visit c radius) := by
  induction cs generalizing st with
  | nil => simp [stampIslands]
  | cons c cs ih => simp [stampIslands, ih, foldl_markCell_trace]

theorem stampIslands_centers (visit : Coord → Nat → List Coord) (radius : Nat)
    (cs : List Coord) (st : GState) :
    (stampIslands visit radius cs st).barrierCenters =
      st.barrierCenters ++ cs := by
  induction cs generalizing st with
  | nil => simp [stampIslands]
  | cons c cs ih => simp [stampIslands, ih, foldl_markCell_centers]

theorem stampIslands_grid_barrier (visit : Coord → Nat → List Coord) (radius : Nat)
    (cs : List Coord) (st : GState) (x y : Int)
    (h : st.grid x y = CellVal.BARRIER) :
    (stampIslands visit radius cs st).grid x y = CellVal.BARRIER := by
  induction cs generalizing st with
  | nil => exact h
  | cons c cs ih =>
    exact ih _ (foldl_markCell_grid_barrier _ _ _ _ h)

theorem stampIslands_grid_mem (visit : Coord → Nat → List Coord) (radius : Nat)
    (cs : List Coord) (st : GState) (x y : Int)
    (h : ∃ c ∈ cs, ∃ q ∈ visit c radius, q.x = x ∧ q.y = y) :
    (stampIslands visit radius cs st).grid x y = CellVal.BARRIER := by
  induction cs generalizing st with
  | nil => simp at h
  | cons c cs ih =>
    obtain ⟨c', hc', hq⟩ := h
    simp only [stampIslands]
    rcases List.mem_cons.mp hc' with rfl | hmem
    · exact stampIslands_grid_barrier _ _ _ _ _ _
        (foldl_markCell_grid_mem _ _ _ _ hq)
    · exact ih _ ⟨c', hmem, hq⟩

theorem stampSpots_locations (visit : Coord → Nat → List Coord) (radius : Nat)
    (cs : List Coord) (st : GState) :
    (stampSpots visit radius cs st).barrierLocations =
      st.barrierLocations ++ cs.flatMap (fun c => visit c radius) := by
  induction cs generalizing st with
  | nil => simp [stampSpots]
  | cons c cs ih => simp [stampSpots, ih, foldl_markCell_locations]

theorem stampSpots_trace (visit : Coord → Nat → List Coord) (radius : Nat)
    (cs : List Coord) (st : GState) :
    (stampSpots visit radius cs st).setTrace =
      st.setTrace ++ cs.flatMap (fun c => visit c radius) := by
  induction cs generalizing st with
  | nil => simp [stampSpots]
  | cons c cs ih => simp [stampSpots, ih, foldl_markCell_trace]

theorem stampSpots_centers (visit : Coord → Nat → List Coord) (radius : Nat)
    (cs : List Coord) (st : GState) :
    (stampSpots visit radius cs st).barrierCenters =
      st.barrierCenters ++ cs := by
  induction cs generalizing st with
  | nil => simp [stampSpots]
  | cons c cs ih => simp [stampSpots, ih, foldl_markCell_centers]

theorem stampSpots_grid_barrier (visit : Coord → Nat → List Coord) (radius : Nat)
    (cs : List Coord) (st : GState) (x y : Int)
    (h : st.grid x y = CellVal.BARRIER) :
    (stampSpots visit radius cs st).grid x y = CellVal.BARRIER := by
  induction cs generalizing st with
  | nil => exact h
  | cons c cs ih =>
    simp only [stampSpots]
    exact ih _ (foldl_markCell_grid_barrier _ _ _ _ h)

theorem stampSpots_grid_mem (visit : Coord → Nat → List Coord) (radius : Nat)
    (cs : List Coord) (st : GState) (x y : Int)
    (h : ∃ c ∈ cs, ∃ q ∈ visit c radius, q.x = x ∧ q.y = y) :
    (stampSpots visit radius cs st).grid x y = CellVal.BARRIER := by
  induction cs generalizing st with
  | nil => simp at h
  | cons c cs ih =>
    obtain ⟨c', hc', hq⟩ := h
    simp only [stampSpots]
    rcases List.mem_cons.mp hc' with rfl | hmem
    · exact stampSpots_grid_barrier _ _ _ _ _ _
        (foldl_markCell_grid_mem _ _ _ _ hq)
    · exact ih _ ⟨c', hmem, hq⟩

end BS

namespace BS

theorem sampleCenters_length (W H margin n : Nat) (s : Nat → Nat) :
    (sampleCenters W H margin n s).1.length = n := by
  induction n generalizing s with
  | zero => rfl
  | succ n ih => simp [sampleCenters, ih]

theorem pairOK_eq_length_check (margin : Nat) (a b : Coord) :
    pairOK margin a b = ! ((a.sub b).length < margin) := by
  simp only [pairOK, Coord.length]
  congr 1
  simp only [decide_eq_decide]
  exact Nat.sqrt_lt.symm

theorem pairOK_iff (margin : Nat) (a b : Coord) :
    pairOK margin a b = true ↔ margin * margin ≤ Coord.lengthSq (a.sub b) := by
  simp only [pairOK, Bool.not_eq_true', decide_eq_false_iff_not, Nat.not_lt]

theorem placementValid_pairwise (margin : Nat) (cs : List Coord)
    (h : placementValid margin cs = true) :
    cs.Pairwise (fun a b => margin * margin ≤ Coord.lengthSq (a.sub b)) := by
  induction cs with
  | nil => exact List.Pairwise.nil
  | cons c cs ih =>
    simp only [placementValid, Bool.and_eq_true, List.all_eq_true] at h
    exact List.Pairwise.cons (fun b hb => (pairOK_iff margin c b).mp (h.1 b hb))
      (ih h.2)

theorem findCenters_some (W H margin k fuel : Nat) (s : Nat → Nat)
    (p : List Coord × (Nat → Nat))
    (h : findCenters W H margin k fuel s = some p) :
    placementValid margin p.1 = true ∧ p.1.length = k := by
  induction fuel generalizing s with
  | zero => simp [findCenters] at h
  | succ fuel ih =>
    rw [findCenters] at h
    by_cases hv : placementValid margin (sampleCenters W H margin k s).1 = true
    · rw [if_pos hv] at h
      cases h
      exact ⟨hv, sampleCenters_length W H margin k s⟩
    · rw [if_neg hv] at h
      exact ih _ h

theorem sampleCenters_24 (n : Nat) (s : Nat → Nat) :
    (sampleCenters 24 24 12 n s).1 = List.replicate n (⟨12, 12⟩ : Coord) := by
  induction n generalizing s with
  | zero => rfl
  | succ n ih =>
    simp [sampleCenters, randomLoc, randomUint, ih, List.replicate_succ]

theorem findCenters_24 (fuel : Nat) (s : Nat → Nat) :
    findCenters 24 24 12 12 fuel s = none := by
  induction fuel generalizing s with
  | zero => rfl
  | succ fuel ih =>
    rw [findCenters]
    rw [if_neg ?_]
    · exact ih _
    · rw [sampleCenters_24]
      decide

end BS

namespace BS

/-- The two draws of case 2, in draw order: `midX` then `midY`. -/
def sel2mid (W H : Nat) (s : Nat → Nat) : Nat × Nat :=
  ((randomUint (W / 10) (W - W / 10) s).1,
   (randomUint (H / 4) (H - H / 4) (randomUint (W / 10) (W - W / 10) s).2).1)

theorem cb0_run (W H : Nat) (visit : Coord → Nat → List Coord) (s : Nat → Nat)
    (fuel : Nat) (st0 : GState) :
    createBarrier W H visit 0 s fuel st0 = BResult.ok (clearSt st0) := rfl

theorem cb1_run (W H : Nat) (visit : Coord → Nat → List Coord) (s : Nat → Nat)
    (fuel : Nat) (st0 : GState) :
    createBarrier W H visit 1 s fuel st0 =
      BResult.ok (drawBox ((W / 2 : Nat) : Int) ((H / 4 : Nat) : Int)
        (((W / 2 : Nat) : Int) + 1) (((H / 4 : Nat) : Int) + ((H / 2 : Nat) : Int))
        (clearSt st0)) := rfl

theorem cb2_run (W H : Nat) (visit : Coord → Nat → List Coord) (s : Nat → Nat)
    (fuel : Nat) (st0 : GState) :
    createBarrier W H visit 2 s fuel st0 =
      BResult.ok (drawBox (((sel2mid W H s).1 : Int) - 1)
        (((sel2mid W H s).2 : Int) - ((H / 4 : Nat) : Int))
        (((sel2mid W H s).1 : Int) + 1)
        (((sel2mid W H s).2 : Int) + ((H / 4 : Nat) : Int))
        { clearSt st0 with
          barrierCenters := (clearSt st0).barrierCenters ++
            [⟨((sel2mid W H s).1 : Int), ((sel2mid W H s).2 : Int)⟩] }) := rfl

theorem cb3_run (W H : Nat) (visit : Coord → Nat → List Coord) (s : Nat → Nat)
    (fuel : Nat) (st0 : GState) :
    createBarrier W H visit 3 s fuel st0 =
      BResult.ok
        (drawBox (((W / 2 : Nat) : Int) - 1)
          (((H / 2 : Nat) : Int) - ((W / 3 / 2 : Nat) : Int))
          (((W / 2 : Nat) : Int) - 1 + 2)
          (((H / 2 : Nat) : Int) - ((W / 3 / 2 : Nat) : Int) + ((W / 3 : Nat) : Int))
          (drawBox (((W / 4 : Nat) : Int) - 1 + ((W / 2 : Nat) : Int) - ((W / 2 : Nat) : Int))
            (((H / 4 : Nat) : Int) - ((W / 3 / 2 : Nat) : Int) + ((H / 2 : Nat) : Int))
            (((W / 4 : Nat) : Int) - 1 + ((W / 2 : Nat) : Int) - ((W / 2 : Nat) : Int) + 2)
            (((H / 4 : Nat) : Int) - ((W / 3 / 2 : Nat) : Int) + ((H / 2 : Nat) : Int) + ((W / 3 : Nat) : Int))
            (drawBox (((W / 4 : Nat) : Int) - 1 + ((W / 2 : Nat) : Int))
              (((H / 4 : Nat) : Int) - ((W / 3 / 2 : Nat) : Int) + ((H / 2 : Nat) : Int))
              (((W / 4 : Nat) : Int) - 1 + ((W / 2 : Nat) : Int) + 2)
              (((H / 4 : Nat) : Int) - ((W / 3 / 2 : Nat) : Int) + ((H / 2 : Nat) : Int) + ((W / 3 : Nat) : Int))
              (drawBox (((W / 4 : Nat) : Int) - 1 + ((W / 2 : Nat) : Int))
                (((H / 4 : Nat) : Int) - ((W / 3 / 2 : Nat) : Int))
                (((W / 4 : Nat) : Int) - 1 + ((W / 2 : Nat) : Int) + 2)
                (((H / 4 : Nat) : Int) - ((W / 3 / 2 : Nat) : Int) + ((W / 3 : Nat) : Int))
                (drawBox (((W / 4 : Nat) : Int) - 1)
                  (((H / 4 : Nat) : Int) - ((W / 3 / 2 : Nat) : Int))
                  (((W / 4 : Nat) : Int) - 1 + 2)
                  (((H / 4 : Nat) : Int) - ((W / 3 / 2 : Nat) : Int) + ((W / 3 : Nat) : Int))
                  (clearSt st0)))))) := rfl

theorem cb4_run (W H : Nat) (visit : Coord → Nat → List Coord) (s : Nat → Nat)
    (fuel : Nat) (st0 : GState) :
    createBarrier W H visit 4 s fuel st0 =
      BResult.ok (drawBox ((W / 4 : Nat) : Int)
        (((H / 2 : Nat) : Int) + ((H / 4 : Nat) : Int))
        (((W / 4 : Nat) : Int) + ((W / 2 : Nat) : Int))
        (((H / 2 : Nat) : Int) + ((H / 4 : Nat) : Int) + 2)
        (clearSt st0)) := rfl

theorem cb5_run (W H : Nat) (visit : Coord → Nat → List Coord) (s : Nat → Nat)
    (fuel : Nat) (st0 : GState) :
    createBarrier W H visit 5 s fuel st0 =
      match findCenters W H 12 12 fuel s with
      | none => BResult.exhausted
      | some p => BResult.ok (stampIslands visit 3 p.1 (clearSt st0)) := rfl

theorem cb6_run (W H : Nat) (visit : Coord → Nat → List Coord) (s : Nat → Nat)
    (fuel : Nat) (st0 : GState) :
    createBarrier W H visit 6 s fuel st0 =
      BResult.ok (stampSpots visit 5 (spotCenters W H) (clearSt st0)) := rfl

theorem cb_default_run (bt W H : Nat) (visit : Coord → Nat → List Coord)
    (s : Nat → Nat) (fuel : Nat) (st0 : GState) (h : 6 < bt) :
    createBarrier W H visit bt s fuel st0 = BResult.fatal (clearSt st0) := by
  obtain ⟨n, rfl⟩ : ∃ n, bt = n + 7 := ⟨bt - 7, by omega⟩
  rfl

end BS

namespace BS

/-- Outcome discriminator: the run ended in the fatal `assert(false)`. -/
def isFatal : BResult → Bool
  | BResult.fatal _ => true
  | _ => false

/-- Outcome discriminator: the run returned normally. -/
def isOk : BResult → Bool
  | BResult.ok _ => true
  | _ => false

theorem drawBox_locations (minX minY maxX maxY : Int) (st : GState) :
    (drawBox minX minY maxX maxY st).barrierLocations =
      st.barrierLocations ++ boxCells minX minY maxX maxY :=
  foldl_markCell_locations _ _

theorem drawBox_trace (minX minY maxX maxY : Int) (st : GState) :
    (drawBox minX minY maxX maxY st).setTrace =
      st.setTrace ++ boxCells minX minY maxX maxY :=
  foldl_markCell_trace _ _

theorem drawBox_centers (minX minY maxX maxY : Int) (st : GState) :
    (drawBox minX minY maxX maxY st).barrierCenters = st.barrierCenters :=
  foldl_markCell_centers _ _

theorem drawBox_grid_mem (minX minY maxX maxY : Int) (st : GState) (q : Coord)
    (h : q ∈ boxCells minX minY maxX maxY) :
    (drawBox minX minY maxX maxY st).grid q.x q.y = CellVal.BARRIER :=
  foldl_markCell_grid_mem _ _ _ _ ⟨q, h, rfl, rfl⟩

theorem drawBox_grid_barrier (minX minY maxX maxY : Int) (st : GState) (x y : Int)
    (h : st.grid x y = CellVal.BARRIER) :
    (drawBox minX minY maxX maxY st).grid x y = CellVal.BARRIER :=
  foldl_markCell_grid_barrier _ _ _ _ h

/-- C1: for every selector in 0..6 and every run of `createBarrier`, the
final `barrierLocations` sequence equals, element for element and in order,
the sequence of coordinates passed to `grid.set(..., BARRIER)` during that
call (`setTrace`); duplicates are retained and no coordinate appears that
was not written in that call. -/
theorem claim1_locations_eq_set_trace (bt W H : Nat)
    (visit : Coord → Nat → List Coord) (s : Nat → Nat) (fuel : Nat)
    (st0 : GState) (hbt : bt ≤ 6) :
    locsOf (createBarrier W H visit bt s fuel st0) =
      traceOf (createBarrier W H visit bt s fuel st0) := by
  interval_cases bt
  · rfl
  · rw [cb1_run]
    simp [locsOf, traceOf, drawBox_locations, drawBox_trace, clearSt]
  · rw [cb2_run]
    simp [locsOf, traceOf, drawBox_locations, drawBox_trace, clearSt]
  · rw [cb3_run]
    simp [locsOf, traceOf, drawBox_locations, drawBox_trace, clearSt]
  · rw [cb4_run]
    simp [locsOf, traceOf, drawBox_locations, drawBox_trace, clearSt]
  · rw [cb5_run]
    cases hfc : findCenters W H 12 12 fuel s with
    | none => rfl
    | some p =>
      simp [locsOf, traceOf, stampIslands_locations, stampIslands_trace, clearSt]
  · rw [cb6_run]
    simp [locsOf, traceOf, stampSpots_locations, stampSpots_trace, clearSt]

/-- C1 witness: the theorem instantiated at selector 1 on a 100 x 100
grid. -/
theorem claim1_witness :
    locsOf (createBarrier 100 100 visNone 1 sZero 1 gInit) =
      traceOf (createBarrier 100 100 visNone 1 sZero 1 gInit) :=
  claim1_locations_eq_set_trace 1 100 100 visNone sZero 1 gInit (by decide)

/-- C3: with selector 5 on a 24 x 24 grid, a grid too small to admit 12
mutually separated island centers (margin = radius * 4 = 12 forces every
sampled center to be exactly (12, 12)), every iteration of the rejection
loop fails the pairwise-separation test, for every random stream; hence no
iteration bound suffices and the source loop never terminates. -/
theorem claim3_sel5_never_terminates (visit : Coord → Nat → List Coord)
    (s : Nat → Nat) (fuel : Nat) (st0 : GState) :
    createBarrier 24 24 visit 5 s fuel st0 = BResult.exhausted := by
  rw [cb5_run, findCenters_24]

/-- C7: an unrecognized selector (outside 0..6) reaches the assertion-style
fatal check and never returns normally; every selector in 0..6 avoids the
fatal path; and every selector in 0..6 other than 5 returns normally on all
inputs (selector 5 alone can keep sampling). -/
theorem claim7_failure_semantics :
    (∀ (bt W H : Nat) (visit : Coord → Nat → List Coord) (s : Nat → Nat)
        (fuel : Nat) (st0 : GState), 6 < bt →
        isFatal (createBarrier W H visit bt s fuel st0) = true) ∧
    (∀ (bt W H : Nat) (visit : Coord → Nat → List Coord) (s : Nat → Nat)
        (fuel : Nat) (st0 : GState), bt ≤ 6 →
        isFatal (createBarrier W H visit bt s fuel st0) = false) ∧
    (∀ (bt W H : Nat) (visit : Coord → Nat → List Coord) (s : Nat → Nat)
        (fuel : Nat) (st0 : GState), bt ≤ 6 → bt ≠ 5 →
        isOk (createBarrier W H visit bt s fuel st0) = true) := by
  refine ⟨?_, ?_, ?_⟩
  · intro bt W H visit s fuel st0 h
    rw [cb_default_run bt W H visit s fuel st0 h]
    rfl
  · intro bt W H visit s fuel st0 h
    interval_cases bt
    · rfl
    · rw [cb1_run]; rfl
    · rw [cb2_run]; rfl
    · rw [cb3_run]; rfl
    · rw [cb4_run]; rfl
    · rw [cb5_run]
      cases hfc : findCenters W H 12 12 fuel s with
      | none => rfl
      | some p => rfl
    · rw [cb6_run]; rfl
  · intro bt W H visit s fuel st0 h h5
    interval_cases bt
    · rfl
    · rw [cb1_run]; rfl
    · rw [cb2_run]; rfl
    · rw [cb3_run]; rfl
    · rw [cb4_run]; rfl
    · exact absurd rfl h5
    · rw [cb6_run]; rfl

/-- C7 witness: selector 7 is fatal; selector 5 with no successful round is
not fatal; selector 4 returns normally. -/
theorem claim7_witness :
    isFatal (createBarrier 100 100 visNone 7 sZero 1 gInit) = true ∧
    isFatal (createBarrier 100 100 visNone 5 sZero 0 gInit) = false ∧
    isOk (createBarrier 100 100 visNone 4 sZero 1 gInit) = true :=
  ⟨claim7_failure_semantics.1 7 100 100 visNone sZero 1 gInit (by decide),
   claim7_failure_semantics.2.1 5 100 100 visNone sZero 0 gInit (by decide),
   claim7_failure_semantics.2.2 4 100 100 visNone sZero 1 gInit (by decide)
     (by decide)⟩

/-- C10: `createBarrier` clears both `barrierLocations` and
`barrierCenters` before inspecting the selector, so a call with an
unrecognized selector reaches the fatal assertion with both records already
emptied and with no grid cell written (the grid is exactly the grid of the
incoming state). -/
theorem claim10_cleared_on_fatal (bt W H : Nat)
    (visit : Coord → Nat → List Coord) (s : Nat → Nat) (fuel : Nat)
    (st0 : GState) (h : 6 < bt) :
    createBarrier W H visit bt s fuel st0 =
      BResult.fatal
        { grid := st0.grid, barrierLocations := [], barrierCenters := [],
          setTrace := [] } :=
  cb_default_run bt W H visit s fuel st0 h

/-- C10 witness: a call with selector 7 on a state with nonempty records
aborts with both records emptied and the grid untouched. -/
theorem claim10_witness :
    createBarrier 9 9 visNone 7 sZero 0
        ⟨fun _ _ => CellVal.EMPTY, [⟨1, 2⟩], [⟨3, 4⟩], [⟨5, 6⟩]⟩ =
      BResult.fatal
        { grid := (⟨fun _ _ => CellVal.EMPTY, [⟨1, 2⟩], [⟨3, 4⟩],
            [⟨5, 6⟩]⟩ : GState).grid,
          barrierLocations := [], barrierCenters := [], setTrace := [] } :=
  claim10_cleared_on_fatal 7 9 9 visNone sZero 0 _ (by decide)

end BS

namespace BS

/-- C8: for every grid size, selector 6 records exactly the 5 centers
(sizeX / 2, n * (sizeY / 6)) for n = 1..5 (spaced by the truncated quotient
sizeY / 6 starting at sizeY / 6), and the marked cells are exactly those
produced by invoking the neighborhood visitor with radius 5 around each
center, one visit per center in center order. -/
theorem claim8_sel6_spots (W H : Nat) (visit : Coord → Nat → List Coord)
    (s : Nat → Nat) (fuel : Nat) (st0 : GState) :
    centersOf (createBarrier W H visit 6 s fuel st0) =
      [⟨((W / 2 : Nat) : Int), ((1 * (H / 6) : Nat) : Int)⟩,
       ⟨((W / 2 : Nat) : Int), ((2 * (H / 6) : Nat) : Int)⟩,
       ⟨((W / 2 : Nat) : Int), ((3 * (H / 6) : Nat) : Int)⟩,
       ⟨((W / 2 : Nat) : Int), ((4 * (H / 6) : Nat) : Int)⟩,
       ⟨((W / 2 : Nat) : Int), ((5 * (H / 6) : Nat) : Int)⟩] ∧
    locsOf (createBarrier W H visit 6 s fuel st0) =
      (centersOf (createBarrier W H visit 6 s fuel st0)).flatMap
        (fun c => visit c 5) := by
  have hsp : spotCenters W H =
      [⟨((W / 2 : Nat) : Int), ((1 * (H / 6) : Nat) : Int)⟩,
       ⟨((W / 2 : Nat) : Int), ((2 * (H / 6) : Nat) : Int)⟩,
       ⟨((W / 2 : Nat) : Int), ((3 * (H / 6) : Nat) : Int)⟩,
       ⟨((W / 2 : Nat) : Int), ((4 * (H / 6) : Nat) : Int)⟩,
       ⟨((W / 2 : Nat) : Int), ((5 * (H / 6) : Nat) : Int)⟩] := rfl
  have hc : centersOf (createBarrier W H visit 6 s fuel st0) = spotCenters W H := by
    rw [cb6_run]
    show (stampSpots visit 5 (spotCenters W H) (clearSt st0)).barrierCenters = _
    rw [stampSpots_centers]
    simp [clearSt]
  have hl : locsOf (createBarrier W H visit 6 s fuel st0) =
      (spotCenters W H).flatMap (fun c => visit c 5) := by
    rw [cb6_run]
    show (stampSpots visit 5 (spotCenters W H) (clearSt st0)).barrierLocations = _
    rw [stampSpots_locations]
    simp [clearSt]
  exact ⟨hc.trans hsp, by rw [hl, hc]⟩

/-- C9: for selector 1 with sizeX = sizeY = 100, the recorded locations are
exactly the 102 cells with x in {50, 51} and y in [25, 75], and no barrier
centers are recorded. -/
theorem claim9_sel1_at_100 (visit : Coord → Nat → List Coord) (s : Nat → Nat)
    (fuel : Nat) (st0 : GState) :
    locsOf (createBarrier 100 100 visit 1 s fuel st0) = boxCells 50 25 51 75 ∧
    (∀ q : Coord, q ∈ locsOf (createBarrier 100 100 visit 1 s fuel st0) ↔
      ((q.x = 50 ∨ q.x = 51) ∧ 25 ≤ q.y ∧ q.y ≤ 75)) ∧
    (locsOf (createBarrier 100 100 visit 1 s fuel st0)).length = 102 ∧
    centersOf (createBarrier 100 100 visit 1 s fuel st0) = [] := by
  have h1 : locsOf (createBarrier 100 100 visit 1 s fuel st0) =
      boxCells 50 25 51 75 := by
    rw [cb1_run]
    show (drawBox _ _ _ _ (clearSt st0)).barrierLocations = _
    rw [drawBox_locations]
    simp [clearSt]
  refine ⟨h1, ?_, ?_, ?_⟩
  · intro q
    rw [h1, mem_boxCells]
    omega
  · rw [h1, length_boxCells]
    rfl
  · rw [cb1_run]
    show (drawBox _ _ _ _ (clearSt st0)).barrierCenters = _
    rw [drawBox_centers]
    rfl

end BS

namespace BS

/-- C4: whenever `createBarrier` with selector 5 returns, `barrierCenters`
holds exactly 12 entries, every pair of centers is at Euclidean distance at
least margin = radius * 4 = 12 (stated via squared distance: dist >= 12 iff
lengthSq >= 12 * 12), and the marked cells are exactly those produced by
invoking the neighborhood visitor with radius 3 around each of the 12
centers, one visit per center in center order. -/
theorem claim4_sel5_centers (W H : Nat) (visit : Coord → Nat → List Coord)
    (s : Nat → Nat) (fuel : Nat) (st0 st1 : GState)
    (h : createBarrier W H visit 5 s fuel st0 = BResult.ok st1) :
    st1.barrierCenters.length = 12 ∧
    List.Pairwise (fun a b => 12 * 12 ≤ Coord.lengthSq (Coord.sub a b))
      st1.barrierCenters ∧
    st1.barrierLocations = st1.barrierCenters.flatMap (fun c => visit c 3) := by
  rw [cb5_run] at h
  cases hfc : findCenters W H 12 12 fuel s with
  | none => rw [hfc] at h; cases h
  | some p =>
    rw [hfc] at h
    cases h
    obtain ⟨hv, hlen⟩ := findCenters_some W H 12 12 fuel s p hfc
    have hcen : (stampIslands visit 3 p.1 (clearSt st0)).barrierCenters = p.1 := by
      rw [stampIslands_centers]; simp [clearSt]
    refine ⟨?_, ?_, ?_⟩
    · rw [hcen, hlen]
    · rw [hcen]
      exact placementValid_pairwise 12 p.1 hv
    · rw [hcen, stampIslands_locations]
      simp [clearSt]

/-- Random stream for the C4 witness: the 12 sampled centers form a 4 x 3
lattice with spacings 24 and 28, so the first sampling round is already
valid. -/
def latticeStream : Nat → Nat := fun n =>
  if n % 2 = 0 then 24 * (n / 2 % 4) else 28 * (n / 2 / 4)

/-- The concrete C4 run: selector 5 on a 100 x 100 grid with the lattice
stream and an empty visitor. -/
def claim4run : BResult := createBarrier 100 100 visNone 5 latticeStream 1 gInit

/-- C4 witness: the theorem instantiated at the concrete run above. -/
theorem claim4_witness :
    (okState claim4run).barrierCenters.length = 12 ∧
    List.Pairwise (fun a b => 12 * 12 ≤ Coord.lengthSq (Coord.sub a b))
      (okState claim4run).barrierCenters ∧
    (okState claim4run).barrierLocations =
      (okState claim4run).barrierCenters.flatMap (fun c => visNone c 3) :=
  claim4_sel5_centers 100 100 visNone latticeStream 1 gInit (okState claim4run)
    rfl

end BS

namespace BS

set_option maxRecDepth 20000 in
/-- C5 counterexample: on the 100 x 100 grid the claim describes five
width-2, height-(W/3 = 33) blocks with corners (24, 9), (74, 9), (74, 59),
(24, 59), (49, 34); a width-2 height-33 block at (x0, y0) covers
x in [x0, x0 + 1] and y in [y0, y0 + 32].  Selector 3 stamps cell (26, 9),
which lies in none of those five blocks (each source block actually spans
3 columns), and stamps cell (24, 42), which also lies in none of them
(each source block actually spans 33 + 1 rows). -/
theorem claim5_counterexample :
    (⟨26, 9⟩ : Coord) ∈ locsOf (createBarrier 100 100 visNone 3 sZero 1 gInit) ∧
    ¬ ((24 ≤ (26 : Int) ∧ (26 : Int) ≤ 24 + 1 ∧ 9 ≤ (9 : Int) ∧ (9 : Int) ≤ 9 + 32) ∨
       (74 ≤ (26 : Int) ∧ (26 : Int) ≤ 74 + 1 ∧ 9 ≤ (9 : Int) ∧ (9 : Int) ≤ 9 + 32) ∨
       (74 ≤ (26 : Int) ∧ (26 : Int) ≤ 74 + 1 ∧ 59 ≤ (9 : Int) ∧ (9 : Int) ≤ 59 + 32) ∨
       (24 ≤ (26 : Int) ∧ (26 : Int) ≤ 24 + 1 ∧ 59 ≤ (9 : Int) ∧ (9 : Int) ≤ 59 + 32) ∨
       (49 ≤ (26 : Int) ∧ (26 : Int) ≤ 49 + 1 ∧ 34 ≤ (9 : Int) ∧ (9 : Int) ≤ 34 + 32)) ∧
    (⟨24, 42⟩ : Coord) ∈ locsOf (createBarrier 100 100 visNone 3 sZero 1 gInit) ∧
    ¬ ((24 ≤ (24 : Int) ∧ (24 : Int) ≤ 24 + 1 ∧ 9 ≤ (42 : Int) ∧ (42 : Int) ≤ 9 + 32) ∨
       (74 ≤ (24 : Int) ∧ (24 : Int) ≤ 74 + 1 ∧ 9 ≤ (42 : Int) ∧ (42 : Int) ≤ 9 + 32) ∨
       (74 ≤ (24 : Int) ∧ (24 : Int) ≤ 74 + 1 ∧ 59 ≤ (42 : Int) ∧ (42 : Int) ≤ 59 + 32) ∨
       (24 ≤ (24 : Int) ∧ (24 : Int) ≤ 24 + 1 ∧ 59 ≤ (42 : Int) ∧ (42 : Int) ≤ 59 + 32) ∨
       (49 ≤ (24 : Int) ∧ (24 : Int) ≤ 49 + 1 ∧ 34 ≤ (42 : Int) ∧ (42 : Int) ≤ 34 + 32)) := by
  refine ⟨by decide, by decide, by decide, by decide⟩

/-- C5 (amended): for every grid size, selector 3 deterministically stamps
exactly five rectangular blocks, each spanning 3 columns (x0 .. x0 + 2, the
drawBox loops being inclusive with blockSizeX = 2) and sizeX / 3 + 1 rows
(y0 .. y0 + sizeX / 3), in the staggered arrangement obtained by offsetting
the base block at (sizeX / 4 - 1, sizeY / 4 - (sizeX / 3) / 2) by half-grid
increments, the fifth block sitting at
(sizeX / 2 - 1, sizeY / 2 - (sizeX / 3) / 2); all divisions truncate and no
barrier centers are recorded. -/
theorem claim5_amended (W H : Nat) (visit : Coord → Nat → List Coord)
    (s : Nat → Nat) (fuel : Nat) (st0 : GState) :
    locsOf (createBarrier W H visit 3 s fuel st0) =
      boxCells (((W / 4 : Nat) : Int) - 1)
        (((H / 4 : Nat) : Int) - ((W / 3 / 2 : Nat) : Int))
        (((W / 4 : Nat) : Int) + 1)
        (((H / 4 : Nat) : Int) - ((W / 3 / 2 : Nat) : Int) + ((W / 3 : Nat) : Int)) ++
      boxCells (((W / 4 : Nat) : Int) - 1 + ((W / 2 : Nat) : Int))
        (((H / 4 : Nat) : Int) - ((W / 3 / 2 : Nat) : Int))
        (((W / 4 : Nat) : Int) + 1 + ((W / 2 : Nat) : Int))
        (((H / 4 : Nat) : Int) - ((W / 3 / 2 : Nat) : Int) + ((W / 3 : Nat) : Int)) ++
      boxCells (((W / 4 : Nat) : Int) - 1 + ((W / 2 : Nat) : Int))
        (((H / 4 : Nat) : Int) - ((W / 3 / 2 : Nat) : Int) + ((H / 2 : Nat) : Int))
        (((W / 4 : Nat) : Int) + 1 + ((W / 2 : Nat) : Int))
        (((H / 4 : Nat) : Int) - ((W / 3 / 2 : Nat) : Int) + ((H / 2 : Nat) : Int) + ((W / 3 : Nat) : Int)) ++
      boxCells (((W / 4 : Nat) : Int) - 1)
        (((H / 4 : Nat) : Int) - ((W / 3 / 2 : Nat) : Int) + ((H / 2 : Nat) : Int))
        (((W / 4 : Nat) : Int) + 1)
        (((H / 4 : Nat) : Int) - ((W / 3 / 2 : Nat) : Int) + ((H / 2 : Nat) : Int) + ((W / 3 : Nat) : Int)) ++
      boxCells (((W / 2 : Nat) : Int) - 1)
        (((H / 2 : Nat) : Int) - ((W / 3 / 2 : Nat) : Int))
        (((W / 2 : Nat) : Int) + 1)
        (((H / 2 : Nat) : Int) - ((W / 3 / 2 : Nat) : Int) + ((W / 3 : Nat) : Int)) ∧
    (locsOf (createBarrier W H visit 3 s fuel st0)).length =
      5 * (3 * (W / 3 + 1)) ∧
    centersOf (createBarrier W H visit 3 s fuel st0) = [] := by
  have e3 : (((W / 4 : Nat) : Int) - 1 + ((W / 2 : Nat) : Int) - ((W / 2 : Nat) : Int)) =
      ((W / 4 : Nat) : Int) - 1 := by ring
  have e1 : (((W / 4 : Nat) : Int) - 1 + 2) = ((W / 4 : Nat) : Int) + 1 := by ring
  have e2 : (((W / 4 : Nat) : Int) - 1 + ((W / 2 : Nat) : Int) + 2) =
      ((W / 4 : Nat) : Int) + 1 + ((W / 2 : Nat) : Int) := by ring
  have e4 : (((W / 2 : Nat) : Int) - 1 + 2) = ((W / 2 : Nat) : Int) + 1 := by ring
  have hl : locsOf (createBarrier W H visit 3 s fuel st0) =
      boxCells (((W / 4 : Nat) : Int) - 1)
        (((H / 4 : Nat) : Int) - ((W / 3 / 2 : Nat) : Int))
        (((W / 4 : Nat) : Int) + 1)
        (((H / 4 : Nat) : Int) - ((W / 3 / 2 : Nat) : Int) + ((W / 3 : Nat) : Int)) ++
      boxCells (((W / 4 : Nat) : Int) - 1 + ((W / 2 : Nat) : Int))
        (((H / 4 : Nat) : Int) - ((W / 3 / 2 : Nat) : Int))
        (((W / 4 : Nat) : Int) + 1 + ((W / 2 : Nat) : Int))
        (((H / 4 : Nat) : Int) - ((W / 3 / 2 : Nat) : Int) + ((W / 3 : Nat) : Int)) ++
      boxCells (((W / 4 : Nat) : Int) - 1 + ((W / 2 : Nat) : Int))
        (((H / 4 : Nat) : Int) - ((W / 3 / 2 : Nat) : Int) + ((H / 2 : Nat) : Int))
        (((W / 4 : Nat) : Int) + 1 + ((W / 2 : Nat) : Int))
        (((H / 4 : Nat) : Int) - ((W / 3 / 2 : Nat) : Int) + ((H / 2 : Nat) : Int) + ((W / 3 : Nat) : Int)) ++
      boxCells (((W / 4 : Nat) : Int) - 1)
        (((H / 4 : Nat) : Int) - ((W / 3 / 2 : Nat) : Int) + ((H / 2 : Nat) : Int))
        (((W / 4 : Nat) : Int) + 1)
        (((H / 4 : Nat) : Int) - ((W / 3 / 2 : Nat) : Int) + ((H / 2 : Nat) : Int) + ((W / 3 : Nat) : Int)) ++
      boxCells (((W / 2 : Nat) : Int) - 1)
        (((H / 2 : Nat) : Int) - ((W / 3 / 2 : Nat) : Int))
        (((W / 2 : Nat) : Int) + 1)
        (((H / 2 : Nat) : Int) - ((W / 3 / 2 : Nat) : Int) + ((W / 3 : Nat) : Int)) := by
    rw [cb3_run]
    simp only [locsOf, drawBox_locations, clearSt, List.nil_append, e3, e1, e2, e4,
      List.append_assoc]
  refine ⟨by rw [hl], ?_, ?_⟩
  · rw [hl]
    simp only [List.length_append, length_boxCells]
    have h3 : ∀ a : Int, (a + 1 + 1 - (a - 1)).toNat = 3 := fun a => by omega
    have h3b : ∀ a b : Int, (a + 1 + b + 1 - (a - 1 + b)).toNat = 3 := fun a b => by omega
    have hk : ∀ a : Int, (a + ((W / 3 : Nat) : Int) + 1 - a).toNat = W / 3 + 1 :=
      fun a => by omega
    simp only [h3, h3b, hk]
    ring
  · rw [cb3_run]
    simp only [centersOf, drawBox_centers, clearSt]

end BS

namespace BS

/-- C6 counterexample: the claim places the bar rows at
y in [3 * sizeY / 4, 3 * sizeY / 4 + 2]; the source computes
sizeY / 2 + sizeY / 4, which differs whenever sizeY mod 4 = 3.  With
sizeX = 8, sizeY = 7 the code stamps cell (2, 4) although
3 * 7 / 4 = 5 > 4, so the stamped cells are not those the claim
describes. -/
theorem claim6_counterexample :
    (⟨2, 4⟩ : Coord) ∈ locsOf (createBarrier 8 7 visNone 4 sZero 1 gInit) ∧
    ¬ ((3 * 7 / 4 : Nat) ≤ 4) := ⟨by decide, by decide⟩

/-- C6 (amended): for every grid size, selector 4 deterministically stamps
a single horizontal bar of height 3 whose cells are exactly those with
x in [sizeX / 4, sizeX / 4 + sizeX / 2] and
y in [sizeY / 2 + sizeY / 4, sizeY / 2 + sizeY / 4 + 2] (each division
truncating separately, which differs from 3 * sizeY / 4 when
sizeY mod 4 = 3), and records no barrier centers. -/
theorem claim6_amended (W H : Nat) (visit : Coord → Nat → List Coord)
    (s : Nat → Nat) (fuel : Nat) (st0 : GState) :
    locsOf (createBarrier W H visit 4 s fuel st0) =
      boxCells ((W / 4 : Nat) : Int)
        (((H / 2 : Nat) : Int) + ((H / 4 : Nat) : Int))
        (((W / 4 : Nat) : Int) + ((W / 2 : Nat) : Int))
        (((H / 2 : Nat) : Int) + ((H / 4 : Nat) : Int) + 2) ∧
    (∀ q : Coord, q ∈ locsOf (createBarrier W H visit 4 s fuel st0) ↔
      (((W / 4 : Nat) : Int) ≤ q.x ∧
       q.x ≤ ((W / 4 : Nat) : Int) + ((W / 2 : Nat) : Int) ∧
       ((H / 2 : Nat) : Int) + ((H / 4 : Nat) : Int) ≤ q.y ∧
       q.y ≤ ((H / 2 : Nat) : Int) + ((H / 4 : Nat) : Int) + 2)) ∧
    (locsOf (createBarrier W H visit 4 s fuel st0)).length = (W / 2 + 1) * 3 ∧
    centersOf (createBarrier W H visit 4 s fuel st0) = [] := by
  have hl : locsOf (createBarrier W H visit 4 s fuel st0) =
      boxCells ((W / 4 : Nat) : Int)
        (((H / 2 : Nat) : Int) + ((H / 4 : Nat) : Int))
        (((W / 4 : Nat) : Int) + ((W / 2 : Nat) : Int))
        (((H / 2 : Nat) : Int) + ((H / 4 : Nat) : Int) + 2) := by
    rw [cb4_run]
    simp only [locsOf, drawBox_locations, clearSt, List.nil_append]
  refine ⟨hl, ?_, ?_, ?_⟩
  · intro q
    rw [hl, mem_boxCells]
  · rw [hl, length_boxCells]
    have hx : (((W / 4 : Nat) : Int) + ((W / 2 : Nat) : Int) + 1 -
        ((W / 4 : Nat) : Int)).toNat = W / 2 + 1 := by omega
    have hy : ((((H / 2 : Nat) : Int) + ((H / 4 : Nat) : Int) + 2) + 1 -
        (((H / 2 : Nat) : Int) + ((H / 4 : Nat) : Int))).toNat = 3 := by omega
    rw [hx, hy]
  · rw [cb4_run]
    simp only [centersOf, drawBox_centers, clearSt]

end BS

namespace BS

/-- Constant random stream with value 50; drives the selector 2 draw to the
top of its inclusive range in the C2 counterexample. -/
def s50 : Nat → Nat := fun _ => 50

set_option maxRecDepth 20000 in
/-- C2 counterexample: the claim quantifies over every grid size and every
sequence of draws, but (a) selector 1 on a 2 x 100 grid stamps cell
(2, 25) whose x equals sizeX, and (b) selector 2 on a 100 x 100 grid with a
maximal y draw (midY = 75) stamps cell (59, 100) whose y equals sizeY; in
both cases a recorded coordinate lies outside [0, sizeX) x [0, sizeY). -/
theorem claim2_counterexample :
    (⟨2, 25⟩ : Coord) ∈ locsOf (createBarrier 2 100 visNone 1 sZero 1 gInit) ∧
    ¬ ((2 : Int) < (2 : Nat)) ∧
    (⟨59, 100⟩ : Coord) ∈ locsOf (createBarrier 100 100 visNone 2 s50 1 gInit) ∧
    ¬ ((100 : Int) < (100 : Nat)) := by
  refine ⟨by decide, by decide, by decide, by decide⟩

/-- Derived-bounds conditions on the grid dimensions under which the
hardcoded margins of each selector fit inside the grid; selectors 0, 5 and
6 need none (their recorded cells come only from the in-grid neighborhood
visitor, or there are none). -/
def sizeOK : Nat → Nat → Nat → Prop
  | 1, W, H => W / 2 + 1 < W ∧ H / 4 + H / 2 < H
  | 2, W, _ => 2 ≤ W / 10
  | 3, W, H =>
      1 ≤ W / 4 ∧ W / 3 / 2 ≤ H / 4 ∧ W / 4 + 1 + W / 2 < W ∧
      H / 4 + H / 2 + W / 3 < H + W / 3 / 2 ∧ W / 2 + 1 < W ∧
      W / 3 / 2 ≤ H / 2 ∧ H / 2 + W / 3 < H + W / 3 / 2
  | 4, W, H => W / 4 + W / 2 < W ∧ H / 2 + H / 4 + 2 < H
  | _, _, _ => True

/-- In-bounds test for a coordinate on a sizeX x sizeY grid. -/
def inGridB (W H : Nat) (q : Coord) : Bool :=
  decide (0 ≤ q.x ∧ q.x < (W : Int) ∧ 0 ≤ q.y ∧ q.y < (H : Int))

/-- Executable check that every recorded barrier location is in range and
that its cell holds `BARRIER` in the final grid. -/
def barrierCheck (W H : Nat) (r : BResult) : Bool :=
  (locsOf r).all (fun q => inGridB W H q && (gridOf r q.x q.y == CellVal.BARRIER))

theorem sel2mid_bounds (W H : Nat) (s : Nat → Nat)
    (hW : W / 10 ≤ W - W / 10) (hH : H / 4 ≤ H - H / 4) :
    W / 10 ≤ (sel2mid W H s).1 ∧ (sel2mid W H s).1 ≤ W - W / 10 ∧
    H / 4 ≤ (sel2mid W H s).2 ∧ (sel2mid W H s).2 ≤ H - H / 4 :=
  ⟨(randomUint_bounds _ _ _ hW).1, (randomUint_bounds _ _ _ hW).2,
   (randomUint_bounds _ _ _ hH).1, (randomUint_bounds _ _ _ hH).2⟩

theorem claim2_core (bt W H : Nat) (visit : Coord → Nat → List Coord)
    (s : Nat → Nat) (fuel : Nat) (st0 : GState)
    (hbt : bt ≤ 6) (hsz : sizeOK bt W H)
    (hmidY : bt = 2 → (sel2mid W H s).2 + H / 4 < H)
    (hvis : ∀ c r, ∀ q ∈ visit c r,
        0 ≤ q.x ∧ q.x < (W : Int) ∧ 0 ≤ q.y ∧ q.y < (H : Int)) :
    ∀ q ∈ locsOf (createBarrier W H visit bt s fuel st0),
      (0 ≤ q.x ∧ q.x < (W : Int) ∧ 0 ≤ q.y ∧ q.y < (H : Int)) ∧
      gridOf (createBarrier W H visit bt s fuel st0) q.x q.y = CellVal.BARRIER := by
  interval_cases bt
  · intro q hq
    rw [cb0_run] at hq
    simp [locsOf, clearSt] at hq
  · simp only [sizeOK] at hsz
    rw [cb1_run]
    intro q hq
    simp only [locsOf, gridOf, drawBox_locations, clearSt, List.nil_append] at hq ⊢
    have hm := (mem_boxCells q _ _ _ _).mp hq
    exact ⟨by omega, drawBox_grid_mem _ _ _ _ _ _ hq⟩
  · simp only [sizeOK] at hsz
    rw [cb2_run]
    intro q hq
    simp only [locsOf, gridOf, drawBox_locations, clearSt, List.nil_append] at hq ⊢
    have hm := (mem_boxCells q _ _ _ _).mp hq
    have hW : W / 10 ≤ W - W / 10 := by omega
    have hH : H / 4 ≤ H - H / 4 := by omega
    have hb := sel2mid_bounds W H s hW hH
    have hy := hmidY rfl
    exact ⟨by omega, drawBox_grid_mem _ _ _ _ _ _ hq⟩
  · simp only [sizeOK] at hsz
    obtain ⟨c1, c2, c3, c4, c5, c6, c7⟩ := hsz
    rw [cb3_run]
    intro q hq
    simp only [locsOf, gridOf, drawBox_locations, clearSt, List.nil_append] at hq ⊢
    rcases List.mem_append.mp hq with hq' | hb5
    · rcases List.mem_append.mp hq' with hq'' | hb4
      · rcases List.mem_append.mp hq'' with hq''' | hb3
        · rcases List.mem_append.mp hq''' with hb1 | hb2
          · have hm := (mem_boxCells q _ _ _ _).mp hb1
            exact ⟨by omega,
              drawBox_grid_barrier _ _ _ _ _ _ _
                (drawBox_grid_barrier _ _ _ _ _ _ _
                  (drawBox_grid_barrier _ _ _ _ _ _ _
                    (drawBox_grid_barrier _ _ _ _ _ _ _
                      (drawBox_grid_mem _ _ _ _ _ _ hb1))))⟩
          · have hm := (mem_boxCells q _ _ _ _).mp hb2
            exact ⟨by omega,
              drawBox_grid_barrier _ _ _ _ _ _ _
                (drawBox_grid_barrier _ _ _ _ _ _ _
                  (drawBox_grid_barrier _ _ _ _ _ _ _
                    (drawBox_grid_mem _ _ _ _ _ _ hb2)))⟩
        · have hm := (mem_boxCells q _ _ _ _).mp hb3
          exact ⟨by omega,
            drawBox_grid_barrier _ _ _ _ _ _ _
              (drawBox_grid_barrier _ _ _ _ _ _ _
                (drawBox_grid_mem _ _ _ _ _ _ hb3))⟩
      · have hm := (mem_boxCells q _ _ _ _).mp hb4
        exact ⟨by omega,
          drawBox_grid_barrier _ _ _ _ _ _ _
            (drawBox_grid_mem _ _ _ _ _ _ hb4)⟩
    · have hm := (mem_boxCells q _ _ _ _).mp hb5
      exact ⟨by omega, drawBox_grid_mem _ _ _ _ _ _ hb5⟩
  · simp only [sizeOK] at hsz
    rw [cb4_run]
    intro q hq
    simp only [locsOf, gridOf, drawBox_locations, clearSt, List.nil_append] at hq ⊢
    have hm := (mem_boxCells q _ _ _ _).mp hq
    exact ⟨by omega, drawBox_grid_mem _ _ _ _ _ _ hq⟩
  · rw [cb5_run]
    cases hfc : findCenters W H 12 12 fuel s with
    | none =>
      intro q hq
      simp [locsOf] at hq
    | some p =>
      intro q hq
      simp only [locsOf, gridOf, stampIslands_locations, clearSt,
        List.nil_append] at hq ⊢
      obtain ⟨c, hc, hqc⟩ := List.mem_flatMap.mp hq
      exact ⟨hvis c 3 q hqc,
        stampIslands_grid_mem _ _ _ _ _ _ ⟨c, hc, q, hqc, rfl, rfl⟩⟩
  · rw [cb6_run]
    intro q hq
    simp only [locsOf, gridOf, stampSpots_locations, clearSt,
      List.nil_append] at hq ⊢
    obtain ⟨c, hc, hqc⟩ := List.mem_flatMap.mp hq
    exact ⟨hvis c 5 q hqc,
      stampSpots_grid_mem _ _ _ _ _ _ ⟨c, hc, q, hqc, rfl, rfl⟩⟩

/-- C2 (amended): for every selector in 0..6, whenever the grid dimensions
satisfy the selector's derived-bounds conditions (`sizeOK`), the selector 2
y draw is not so large that midY + sizeY / 4 reaches sizeY, and the
neighborhood visitor yields only in-grid cells, every coordinate recorded
in `barrierLocations` lies within [0, sizeX) x [0, sizeY) and the final
grid cell there equals `BARRIER`; no coordinate is clamped into range.  The
unamended claim is refuted by `claim2_counterexample`. -/
theorem claim2_amended (bt W H : Nat) (visit : Coord → Nat → List Coord)
    (s : Nat → Nat) (fuel : Nat) (st0 : GState)
    (hbt : bt ≤ 6) (hsz : sizeOK bt W H)
    (hmidY : bt = 2 → (sel2mid W H s).2 + H / 4 < H)
    (hvis : ∀ c r, ∀ q ∈ visit c r,
        0 ≤ q.x ∧ q.x < (W : Int) ∧ 0 ≤ q.y ∧ q.y < (H : Int)) :
    barrierCheck W H (createBarrier W H visit bt s fuel st0) = true := by
  rw [barrierCheck, List.all_eq_true]
  intro q hq
  obtain ⟨hb, hg⟩ := claim2_core bt W H visit s fuel st0 hbt hsz hmidY hvis q hq
  simp only [inGridB, Bool.and_eq_true, decide_eq_true_eq, beq_iff_eq]
  exact ⟨hb, hg⟩

/-- C2 witness: the amended theorem instantiated at selector 1 on a
100 x 100 grid with the empty visitor. -/
theorem claim2_witness :
    barrierCheck 100 100 (createBarrier 100 100 visNone 1 sZero 1 gInit) = true :=
  claim2_amended 1 100 100 visNone sZero 1 gInit (by decide)
    (by unfold sizeOK; decide)
    (fun h => absurd h (by decide))
    (fun c r q hq => absurd hq (by simp [visNone]))

end BS
